import Mathlib

/-
Verification of the PDF-to-Podcast application (src/Main.py) against its
specification.  The Python source is shallowly embedded: JSON values,
Python truthiness, dictionary/list access (with the exceptions those raise),
the `requests` transport boundary, the ordered `except` clauses of each
`try` block, and the Streamlit script sections that mutate session state.

Refinement mapping used throughout: a Python function that displays an
error with `st.error(...)` and returns `None` is modelled as returning
`Except.error e` for the `ApiError` kind named by the error taxonomy
of the specification; a normal `return v` is `Except.ok v`.  An exception that
would propagate uncaught out of a function is `Except.error (e : Exn)` at
the outer level, so a function value `Except.ok r` means "no uncaught
exception, result r".
-/

set_option autoImplicit false

namespace TeacherAI

/-- JSON values as manipulated by `Main.py` (dict, list, str, numbers,
booleans, None).  Numbers are rationals so the literal voice settings
0.5 and 0.75 are representable. -/
inductive Json where
  | null
  | bool (b : Bool)
  | num (q : ℚ)
  | str (s : String)
  | arr (elems : List Json)
  | obj (fields : List (String × Json))

/-- Python exceptions that can arise in the embedded code.  All of these
are subclasses of `Exception` in Python; `httpError` and
`requestException` correspond to `requests.exceptions.HTTPError` and
`requests.exceptions.RequestException` (the former subclasses the
latter). -/
inductive Exn where
  | httpError (status : Nat) (body : String)
  | requestException (msg : String)
  | jsonDecodeError
  | keyError (k : String)
  | indexError
  | typeError
  | attributeError
  | pdfReadError (msg : String)

/-- The error taxonomy of the specification (spec section 7), the abstract view
of the `st.error(...); return None` branches of the source.  `unexpected`
is the catch-all `except Exception` branch of the source, which is outside
the four API error kinds of the spec. -/
inductive ApiError where
  | missingCredential
  | httpError (status : Nat) (body : String)
  | transportError (msg : String)
  | malformedResponse
  | unexpected (e : Exn)

/-- Python truthiness of a JSON value. -/
def pyTruthy : Json → Bool
  | .null => false
  | .bool b => b
  | .num q => q ≠ 0
  | .str s => s ≠ ""
  | .arr elems => !elems.isEmpty
  | .obj fields => !fields.isEmpty

/-- Dictionary lookup with Python `.get` default (`None` when the key is
absent). -/
def lookupJ (fields : List (String × Json)) (k : String) : Json :=
  (fields.lookup k).getD Json.null

/-- Python `d.get(k)` : on a dict returns the value or `None`; on any
other value, accessing the `.get` attribute raises `AttributeError`. -/
def jGet (j : Json) (k : String) : Except Exn Json :=
  match j with
  | .obj fields => Except.ok (lookupJ fields k)
  | _ => Except.error Exn.attributeError

/-- Python `d[k]` for a string key: on a dict returns the value or raises
`KeyError`; on any other value raises `TypeError`. -/
def jSub (j : Json) (k : String) : Except Exn Json :=
  match j with
  | .obj fields =>
    match fields.lookup k with
    | some v => Except.ok v
    | none => Except.error (Exn.keyError k)
  | _ => Except.error Exn.typeError

/-- Python `x[i]` for a non-negative int index: on a list returns the
element or raises `IndexError`; on a string returns the one-character
string or raises `IndexError`; on a dict raises `KeyError`; otherwise
`TypeError`. -/
def jIdx (j : Json) (i : Nat) : Except Exn Json :=
  match j with
  | .arr elems =>
    match elems.get? i with
    | some v => Except.ok v
    | none => Except.error Exn.indexError
  | .str s =>
    match s.data.get? i with
    | some c => Except.ok (Json.str (String.mk [c]))
    | none => Except.error Exn.indexError
  | .obj _ => Except.error (Exn.keyError "")
  | _ => Except.error Exn.typeError

/-- Python `isinstance(e, requests.exceptions.HTTPError)`. -/
def isHTTPError : Exn → Bool
  | .httpError _ _ => true
  | _ => false

/-- Python `isinstance(e, requests.exceptions.RequestException)`;
`HTTPError` is a subclass of `RequestException`. -/
def isRequestException : Exn → Bool
  | .httpError _ _ => true
  | .requestException _ => true
  | _ => false

/-- Python `isinstance(e, Exception)`: every exception modelled here is a
subclass of `Exception`. -/
def isException : Exn → Bool := fun _ => true

/-- Message text used when an exception is interpolated into an error
message (`str(e)`). -/
def exnMsg : Exn → String
  | .httpError _ body => body
  | .requestException m => m
  | .keyError k => k
  | .pdfReadError m => m
  | _ => ""

/-- One `except <class> as e:` clause: a class test and the value the
handler produces from the exception. -/
structure Handler (α : Type) where
  catchesExn : Exn → Bool
  recover : Exn → α

/-- Run an ordered list of `except` clauses on a raised exception: the
first clause whose class test matches handles it. -/
def runHandlers {α : Type} : List (Handler α) → Exn → Option α
  | [], _ => none
  | h :: hs, e => if h.catchesExn e then some (h.recover e) else runHandlers hs e

/-- Python `try: body except ...`: a normal result passes through; a
raised exception is given to the clauses in order, and propagates
(outer `Except.error`) if no clause matches. -/
def tryExcept {α : Type} (body : Except Exn α) (hs : List (Handler α)) : Except Exn α :=
  match body with
  | .ok v => .ok v
  | .error e =>
    match runHandlers hs e with
    | some v => .ok v
    | none => .error e

/-- An HTTP response as `requests` delivers it: status code, body decoded
as text (`response.text`), body bytes (`response.content`), and the result
of `response.json()` (`none` models a `JSONDecodeError`). -/
structure HttpResponse where
  status : Nat
  text : String
  content : List Nat
  jsonOf : Option Json

/-- An HTTP request issued through `requests.post`. -/
structure HttpRequest where
  url : String
  headers : List (String × String)
  body : Json

/-- Behaviour of one `requests.post` call: either a response arrives or
the call raises a `RequestException` (DNS failure, timeout, reset). -/
inductive TransportResult where
  | response (resp : HttpResponse)
  | exn (msg : String)

/-- Python `response.raise_for_status()`: raises `HTTPError` carrying the
response exactly when the status code is 4xx or 5xx. -/
def raise_for_status (resp : HttpResponse) : Except Exn Unit :=
  if 400 ≤ resp.status ∧ resp.status < 600 then
    Except.error (Exn.httpError resp.status resp.text)
  else Except.ok ()

/-- Endpoint constant from `Main.py`. -/
def GEMINI_API_URL : String :=
  "https://generativelanguage.googleapis.com/v1beta/models/gemini-2.0-flash:generateContent"

/-- Endpoint constant from `Main.py`. -/
def ELEVENLABS_API_BASE_URL : String := "https://api.elevenlabs.io/v1/text-to-speech"

/-- Default voice argument of `text_to_speech_elevenlabs`. -/
def DEFAULT_VOICE_ID : String := "21m00Tcm4obsnInGRB_v"

/-- The request payload built by `call_gemini_api`. -/
def geminiPayload (prompt_text : String) : Json :=
  Json.obj [("contents", Json.arr [Json.obj
    [("role", Json.str "user"),
     ("parts", Json.arr [Json.obj [("text", Json.str prompt_text)]])]])]

/-- The request issued by `call_gemini_api` when the key is present. -/
def geminiRequest (prompt_text gemini_api_key : String) : HttpRequest :=
  { url := GEMINI_API_URL ++ "?key=" ++ gemini_api_key,
    headers := [("Content-Type", "application/json")],
    body := geminiPayload prompt_text }

/-- The envelope-inspection part of `call_gemini_api` (lines 82-87): test
the truthiness chain `result and result.get("candidates") and
result["candidates"][0].get("content") and
result["candidates"][0]["content"].get("parts")`, and either return the
text of the first part or report the malformed-response error. -/
def geminiParse (result : Json) : Except Exn (Except ApiError Json) := do
  if pyTruthy result then
    let a ← jGet result "candidates"
    if pyTruthy a then
      let b1 ← jSub result "candidates"
      let b2 ← jIdx b1 0
      let b ← jGet b2 "content"
      if pyTruthy b then
        let c1 ← jSub result "candidates"
        let c2 ← jIdx c1 0
        let c3 ← jSub c2 "content"
        let c ← jGet c3 "parts"
        if pyTruthy c then
          let d1 ← jSub result "candidates"
          let d2 ← jIdx d1 0
          let d3 ← jSub d2 "content"
          let d4 ← jSub d3 "parts"
          let d5 ← jIdx d4 0
          let t ← jSub d5 "text"
          return (Except.ok t)
        else return (Except.error ApiError.malformedResponse)
      else return (Except.error ApiError.malformedResponse)
    else return (Except.error ApiError.malformedResponse)
  else return (Except.error ApiError.malformedResponse)

/-- Body of the `try` block of `call_gemini_api` (lines 77-87): post the
request, `raise_for_status`, decode JSON (`response.json()`), then inspect
the envelope with `geminiParse`. -/
def geminiTryBody (tres : TransportResult) : Except Exn (Except ApiError Json) := do
  let resp ← match tres with
    | .exn m => Except.error (Exn.requestException m)
    | .response r => Except.ok r
  let _ ← raise_for_status resp
  let result ← match resp.jsonOf with
    | some j => Except.ok j
    | none => Except.error Exn.jsonDecodeError
  geminiParse result

/-- The three ordered `except` clauses shared textually by
`call_gemini_api` (lines 88-96) and `text_to_speech_elevenlabs`
(lines 135-143): `HTTPError` becomes the `HttpError{status, body}` of the spec,
any other `RequestException` becomes `TransportError`, and the final
`except Exception` catch-all becomes the out-of-taxonomy `unexpected`. -/
def apiHandlers (α : Type) : List (Handler (Except ApiError α)) :=
  [ { catchesExn := isHTTPError,
      recover := fun e =>
        match e with
        | Exn.httpError s b => Except.error (ApiError.httpError s b)
        | e => Except.error (ApiError.unexpected e) },
    { catchesExn := isRequestException,
      recover := fun e => Except.error (ApiError.transportError (exnMsg e)) },
    { catchesExn := isException,
      recover := fun e => Except.error (ApiError.unexpected e) } ]

/-- Embedding of `call_gemini_api` (lines 55-96).  The transport argument
stands for `requests.post`; the second component is the list of HTTP
requests actually issued (for the zero-network-requests properties). -/
def call_gemini_api (prompt_text gemini_api_key : String)
    (transport : HttpRequest → TransportResult) :
    Except Exn (Except ApiError Json) × List HttpRequest :=
  if gemini_api_key = "" then (Except.ok (Except.error ApiError.missingCredential), [])
  else
    let req := geminiRequest prompt_text gemini_api_key
    (tryExcept (geminiTryBody (transport req)) (apiHandlers Json), [req])

/-- The summarization prompt of `summarize_text_with_gemini` (line 100). -/
def summaryPrompt (text : String) : String :=
  "Summarize the following PDF text without using any asterisks. Keep the summary concise and informative:\n\n"
    ++ text

/-- Embedding of `summarize_text_with_gemini` (lines 98-102). -/
def summarize_text_with_gemini (text gemini_api_key : String)
    (transport : HttpRequest → TransportResult) :
    Except Exn (Except ApiError Json) × List HttpRequest :=
  call_gemini_api (summaryPrompt text) gemini_api_key transport

/-- The question-answering prompt of `answer_question_with_gemini`
(line 106). -/
def qaPrompt (question context_text : String) : String :=
  "Based on the following text, answer the question: \x27" ++ question
    ++ "\x27. If the answer is not in the text, state that you cannot find it. Do not use any asterisks.\n\nText: "
    ++ context_text

/-- Embedding of `answer_question_with_gemini` (lines 104-108). -/
def answer_question_with_gemini (question context_text gemini_api_key : String)
    (transport : HttpRequest → TransportResult) :
    Except Exn (Except ApiError Json) × List HttpRequest :=
  call_gemini_api (qaPrompt question context_text) gemini_api_key transport

/-- The request payload built by `text_to_speech_elevenlabs`
(lines 121-128); `text` is whatever value the caller passes (the stored
summary). -/
def ttsPayload (text : Json) : Json :=
  Json.obj [("text", text),
    ("model_id", Json.str "eleven_multilingual_v2"),
    ("voice_settings", Json.obj
      [("stability", Json.num (1/2)), ("similarity_boost", Json.num (3/4))])]

/-- The request issued by `text_to_speech_elevenlabs` when the key is
present. -/
def ttsRequest (text : Json) (elevenlabs_api_key voice_id : String) : HttpRequest :=
  { url := ELEVENLABS_API_BASE_URL ++ "/" ++ voice_id,
    headers := [("xi-api-key", elevenlabs_api_key),
      ("Content-Type", "application/json"), ("Accept", "audio/mpeg")],
    body := ttsPayload text }

/-- Body of the `try` block of `text_to_speech_elevenlabs`
(lines 130-134): post, `raise_for_status`, then return the raw response
bytes (`response.content`). -/
def ttsTryBody (tres : TransportResult) : Except Exn (Except ApiError (List Nat)) := do
  let resp ← match tres with
    | .exn m => Except.error (Exn.requestException m)
    | .response r => Except.ok r
  let _ ← raise_for_status resp
  return (Except.ok resp.content)

/-- Embedding of `text_to_speech_elevenlabs` (lines 110-143). -/
def text_to_speech_elevenlabs (text : Json) (elevenlabs_api_key voice_id : String)
    (transport : HttpRequest → TransportResult) :
    Except Exn (Except ApiError (List Nat)) × List HttpRequest :=
  if elevenlabs_api_key = "" then (Except.ok (Except.error ApiError.missingCredential), [])
  else
    let req := ttsRequest text elevenlabs_api_key voice_id
    (tryExcept (ttsTryBody (transport req)) (apiHandlers (List Nat)), [req])

/-- An uploaded byte stream as seen through `PyPDF2`: either
`PyPDF2.PdfReader` parses it into a list of pages, each yielding its
`extract_text()` string, or constructing the reader raises (corrupt or
non-PDF bytes). -/
inductive PdfDoc where
  | valid (pages : List String)
  | corrupt (msg : String)

/-- Body of the `try` block of `extract_text_from_pdf` (lines 45-50):
build the reader, then `for page_num in range(len(pages)): text +=
pages[page_num].extract_text()`. -/
def extractTryBody : PdfDoc → Except Exn String
  | .corrupt m => Except.error (Exn.pdfReadError m)
  | .valid pages =>
    Except.ok ((List.range pages.length).foldl (fun text i => text ++ pages.getD i "") "")

/-- The single `except Exception` clause of `extract_text_from_pdf`
(lines 51-53): display the error and return `None`. -/
def extractHandlers : List (Handler (Option String)) :=
  [ { catchesExn := isException, recover := fun _ => none } ]

/-- Embedding of `extract_text_from_pdf` (lines 43-53): `Except.ok (some t)`
is a normal return of `t`, `Except.ok none` the caught-failure return of
`None`. -/
def extract_text_from_pdf (doc : PdfDoc) : Except Exn (Option String) :=
  tryExcept ((extractTryBody doc).map some) extractHandlers

/-- The session-state fields of `Main.py` that the main app logic reads
and writes (lines 19-26): the two API keys, `extracted_pdf_text`
(a string, or `None` after a failed extraction — modelled as
`Option String` with `none` for Python `None`), and `last_summary`
(`None` or the value returned by summarization). -/
structure SessionState where
  gemini_api_key : String
  elevenlabs_api_key : String
  extracted_pdf_text : Option String
  last_summary : Option Json

/-- Python truthiness of `st.session_state.extracted_pdf_text`
(`None` and `""` are falsy). -/
def pyTruthyText : Option String → Bool
  | none => false
  | some s => s ≠ ""

/-- Python truthiness of `st.session_state.last_summary`. -/
def pyTruthySummary : Option Json → Bool
  | none => false
  | some v => pyTruthy v

/-- The session state at the start of a fresh session (lines 19-26):
empty keys, `extracted_pdf_text = ""`, `last_summary = None`. -/
def initialState : SessionState :=
  { gemini_api_key := "", elevenlabs_api_key := "",
    extracted_pdf_text := some "", last_summary := none }

/-- One run of the upload-handling section of the script (lines 154-178)
with a freshly uploaded document: extract, store the extracted text, and
if it is truthy and a Gemini key is present, summarize and store the
summary (the summary is set to `None` when summarization returns a falsy
value or `None`); with no key the summary field is not written; with
non-truthy extracted text the summary is cleared.  An uncaught exception
(outer `Except.error`, provably unreachable) halts the script with the
mutations made so far kept. -/
def uploadStep (st : SessionState) (doc : PdfDoc)
    (transport : HttpRequest → TransportResult) : SessionState :=
  match extract_text_from_pdf doc with
  | .error _ => st
  | .ok extracted =>
    let st1 : SessionState := { st with extracted_pdf_text := extracted }
    if pyTruthyText st1.extracted_pdf_text then
      if st1.gemini_api_key ≠ "" then
        match (summarize_text_with_gemini (extracted.getD "") st1.gemini_api_key transport).1 with
        | .ok (.ok v) =>
          if pyTruthy v then { st1 with last_summary := some v }
          else { st1 with last_summary := none }
        | .ok (.error _) => { st1 with last_summary := none }
        | .error _ => st1
      else st1
    else { st1 with last_summary := none }

/-- Guard of the question-answering section (line 181): the section is
reachable only when `st.session_state.extracted_pdf_text` is truthy. -/
def qaEnabled (st : SessionState) : Bool :=
  pyTruthyText st.extracted_pdf_text

/-- Guard of the text-to-speech section (line 208): the section is
reachable only when `st.session_state.get("last_summary")` is truthy. -/
def ttsSectionVisible (st : SessionState) : Bool :=
  pyTruthySummary st.last_summary

/-- One run of the text-to-speech section of the script (lines 208-217)
with the "Generate Podcast Audio" button pressed: if a truthy summary and
an ElevenLabs key are present, synthesize audio from the stored summary;
the second component is the audio handed to `st.audio` (`none` when
nothing is played).  No session-state field is written by this section. -/
def generateAudioStep (st : SessionState)
    (transport : HttpRequest → TransportResult) :
    SessionState × Option (List Nat) :=
  match st.last_summary with
  | none => (st, none)
  | some v =>
    if pyTruthy v then
      if st.elevenlabs_api_key ≠ "" then
        match (text_to_speech_elevenlabs v st.elevenlabs_api_key DEFAULT_VOICE_ID transport).1 with
        | .ok (.ok audio_bytes) =>
          if !audio_bytes.isEmpty then (st, some audio_bytes) else (st, none)
        | _ => (st, none)
      else (st, none)
    else (st, none)

/-- Reads the text of the first part of the first candidate from a response
envelope, following the documented envelope shape
(spec section 6: candidates, content, parts, text), independently of the
truthiness chain of the source. -/
def firstCandidateFirstPartText (env : Json) : Option String :=
  match env with
  | .obj fields =>
    match fields.lookup "candidates" with
    | some (.arr (c0 :: _)) =>
      match c0 with
      | .obj c0fields =>
        match c0fields.lookup "content" with
        | some (.obj ctfields) =>
          match ctfields.lookup "parts" with
          | some (.arr (p0 :: _)) =>
            match p0 with
            | .obj p0fields =>
              match p0fields.lookup "text" with
              | some (.str t) => some t
              | _ => none
            | _ => none
          | _ => none
        | _ => none
      | _ => none
    | _ => none
  | _ => none

/-- The envelope lacks the candidates/content/parts path in one of the
well-typed ways: the envelope is falsy, or `candidates` is missing or
falsy, or the first candidate is a dict whose `content` is missing or
falsy, or that content is a dict whose `parts` is missing or falsy.
Ill-typed envelopes (for example `candidates` bound to a number) are not
covered: there the truthiness chain of the source raises instead of reaching
its malformed-response branch. -/
def expectedPathAbsent (env : Json) : Bool :=
  if !pyTruthy env then true
  else
    match env with
    | .obj fields =>
      let c := lookupJ fields "candidates"
      if !pyTruthy c then true
      else
        match c with
        | .arr (c0 :: _) =>
          match c0 with
          | .obj c0fields =>
            let ct := lookupJ c0fields "content"
            if !pyTruthy ct then true
            else
              match ct with
              | .obj ctfields => !pyTruthy (lookupJ ctfields "parts")
              | _ => false
          | _ => false
        | _ => false
    | _ => false

/-- Ordered concatenation of per-page texts with no separator
(specification, section 8, first property). -/
def concatPages : List String → String
  | [] => ""
  | p :: ps => p ++ concatPages ps

/-- The final `except Exception` clause of the two API clients matches
every exception, so their `try` blocks never let one propagate. -/
lemma tryExcept_apiHandlers_total {α : Type} (x : Except Exn (Except ApiError α)) :
    ∃ v, tryExcept x (apiHandlers α) = Except.ok v := by
  cases x with
  | ok v => exact ⟨v, rfl⟩
  | error e => cases e <;> exact ⟨_, rfl⟩

/-- The `except Exception` clause of `extract_text_from_pdf` matches
every exception. -/
lemma tryExcept_extractHandlers_total (x : Except Exn (Option String)) :
    ∃ v, tryExcept x extractHandlers = Except.ok v := by
  cases x with
  | ok v => exact ⟨v, rfl⟩
  | error e => exact ⟨none, rfl⟩

/-- `call_gemini_api` never lets an exception propagate. -/
lemma call_gemini_api_total (prompt_text gemini_api_key : String)
    (transport : HttpRequest → TransportResult) :
    ∃ r, (call_gemini_api prompt_text gemini_api_key transport).1 = Except.ok r := by
  by_cases h : gemini_api_key = ""
  · exact ⟨Except.error ApiError.missingCredential, by simp [call_gemini_api, h]⟩
  · simpa [call_gemini_api, h] using
      tryExcept_apiHandlers_total (geminiTryBody (transport (geminiRequest prompt_text gemini_api_key)))

/-- `text_to_speech_elevenlabs` never lets an exception propagate. -/
lemma tts_total (text : Json) (elevenlabs_api_key voice_id : String)
    (transport : HttpRequest → TransportResult) :
    ∃ r, (text_to_speech_elevenlabs text elevenlabs_api_key voice_id transport).1 = Except.ok r := by
  by_cases h : elevenlabs_api_key = ""
  · exact ⟨Except.error ApiError.missingCredential, by simp [text_to_speech_elevenlabs, h]⟩
  · simpa [text_to_speech_elevenlabs, h] using
      tryExcept_apiHandlers_total (ttsTryBody (transport (ttsRequest text elevenlabs_api_key voice_id)))

/-- `extract_text_from_pdf` never lets an exception propagate. -/
lemma extract_total (doc : PdfDoc) :
    ∃ r, extract_text_from_pdf doc = Except.ok r :=
  tryExcept_extractHandlers_total ((extractTryBody doc).map some)

/-- The extraction loop `for page_num in range(len(pages)): text +=
pages[page_num].extract_text()` computes the ordered concatenation of the
pages after any accumulator. -/
lemma range_foldl_concat (l : List String) (s : String) :
    (List.range l.length).foldl (fun text i => text ++ l.getD i "") s
      = s ++ concatPages l := by
  induction l generalizing s with
  | nil => simp [concatPages]
  | cons p ps ih =>
    simp only [List.length_cons, List.range_succ_eq_map, List.foldl_cons, List.foldl_map,
      List.getD_cons_zero, List.getD_cons_succ, concatPages]
    rw [ih (s ++ p), String.append_assoc]

/-- The text-to-speech section of the script (lines 208-217) writes no
session-state field at all. -/
lemma generateAudioStep_fst (st : SessionState)
    (transport : HttpRequest → TransportResult) :
    (generateAudioStep st transport).1 = st := by
  rcases h : st.last_summary with _ | v
  all_goals simp only [generateAudioStep, h]
  all_goals repeat' split
  all_goals rfl

/-- C1: with an empty language-model credential, `call_gemini_api` (hence
summarization and question answering) fails with `MissingCredential` and
issues zero HTTP requests; with an empty speech credential,
`text_to_speech_elevenlabs` does the same. -/
theorem missing_credential_short_circuits :
    (∀ (prompt_text : String) (transport : HttpRequest → TransportResult),
        call_gemini_api prompt_text "" transport
          = (Except.ok (Except.error ApiError.missingCredential), [])) ∧
    (∀ (text : String) (transport : HttpRequest → TransportResult),
        summarize_text_with_gemini text "" transport
          = (Except.ok (Except.error ApiError.missingCredential), [])) ∧
    (∀ (question context_text : String) (transport : HttpRequest → TransportResult),
        answer_question_with_gemini question context_text "" transport
          = (Except.ok (Except.error ApiError.missingCredential), [])) ∧
    (∀ (text : Json) (voice_id : String) (transport : HttpRequest → TransportResult),
        text_to_speech_elevenlabs text "" voice_id transport
          = (Except.ok (Except.error ApiError.missingCredential), [])) := by
  refine ⟨?_, ?_, ?_, ?_⟩ <;> intros <;>
    simp [call_gemini_api, summarize_text_with_gemini, answer_question_with_gemini,
      text_to_speech_elevenlabs]

/-- C7: for every parseable document, the extracted text is the ordered
concatenation of the per-page texts with no separator added. -/
theorem extract_concatenates_pages (pages : List String) :
    extract_text_from_pdf (PdfDoc.valid pages) = Except.ok (some (concatPages pages)) := by
  simp only [extract_text_from_pdf, extractTryBody]
  rw [range_foldl_concat]
  simp [tryExcept, Except.map]

/-- C8: no exception propagates out of the extraction, language-model or
speech-synthesis client functions: for every input and every transport
behaviour each returns a caught result (`Except.ok`), never an uncaught
exception (`Except.error`). -/
theorem no_exception_escapes :
    (∀ (prompt_text gemini_api_key : String) (transport : HttpRequest → TransportResult),
        ∃ r, (call_gemini_api prompt_text gemini_api_key transport).1 = Except.ok r) ∧
    (∀ (text : Json) (elevenlabs_api_key voice_id : String)
        (transport : HttpRequest → TransportResult),
        ∃ r, (text_to_speech_elevenlabs text elevenlabs_api_key voice_id transport).1
          = Except.ok r) ∧
    (∀ doc : PdfDoc, ∃ r, extract_text_from_pdf doc = Except.ok r) :=
  ⟨call_gemini_api_total, tts_total, extract_total⟩

/-- C3: uploading a corrupt or non-PDF byte stream makes extraction fail,
stores `None` as the extracted text, clears any previously stored summary,
and leaves both the question-answering and text-to-speech sections
unreachable. -/
theorem corrupt_upload_clears_state (st : SessionState) (m : String)
    (transport : HttpRequest → TransportResult) :
    extract_text_from_pdf (PdfDoc.corrupt m) = Except.ok none ∧
    (uploadStep st (PdfDoc.corrupt m) transport).extracted_pdf_text = none ∧
    (uploadStep st (PdfDoc.corrupt m) transport).last_summary = none ∧
    qaEnabled (uploadStep st (PdfDoc.corrupt m) transport) = false ∧
    ttsSectionVisible (uploadStep st (PdfDoc.corrupt m) transport) = false := by
  simp [extract_text_from_pdf, extractTryBody, tryExcept, Except.map, extractHandlers,
    runHandlers, isException, uploadStep, pyTruthyText, qaEnabled, ttsSectionVisible,
    pyTruthySummary]

/-- C9: a failed audio-synthesis request leaves the stored summary and
the stored extracted text unchanged (the text-to-speech section never
writes session state), and plays no audio. -/
theorem failed_audio_preserves_state (st : SessionState)
    (transport : HttpRequest → TransportResult) (sv : Json) (e : ApiError)
    (hsum : st.last_summary = some sv)
    (hfail : (text_to_speech_elevenlabs sv st.elevenlabs_api_key DEFAULT_VOICE_ID transport).1
      = Except.ok (Except.error e)) :
    (generateAudioStep st transport).1.last_summary = st.last_summary ∧
    (generateAudioStep st transport).1.extracted_pdf_text = st.extracted_pdf_text ∧
    (generateAudioStep st transport).2 = none := by
  refine ⟨by rw [generateAudioStep_fst], by rw [generateAudioStep_fst], ?_⟩
  simp only [generateAudioStep, hsum]
  split
  · split
    · rw [hfail]
    · rfl
  · rfl

/-- Witness for C9 at a concrete session and a transport answering
HTTP 500. -/
theorem failed_audio_preserves_state_witness :
    (generateAudioStep
        ⟨"", "k", some "doc text", some (Json.str "summary")⟩
        (fun _ => TransportResult.response ⟨500, "server error", [], none⟩)).1.last_summary
      = some (Json.str "summary") ∧
    (generateAudioStep
        ⟨"", "k", some "doc text", some (Json.str "summary")⟩
        (fun _ => TransportResult.response ⟨500, "server error", [], none⟩)).1.extracted_pdf_text
      = some "doc text" ∧
    (generateAudioStep
        ⟨"", "k", some "doc text", some (Json.str "summary")⟩
        (fun _ => TransportResult.response ⟨500, "server error", [], none⟩)).2
      = none :=
  failed_audio_preserves_state
    ⟨"", "k", some "doc text", some (Json.str "summary")⟩
    (fun _ => TransportResult.response ⟨500, "server error", [], none⟩)
    (Json.str "summary") (ApiError.httpError 500 "server error") rfl rfl

/-- C10: after any upload whose extraction fails, the stored extracted
text is overwritten with `None` (replacing the text of any earlier document),
the question-answering section becomes unreachable, and the summary is
cleared. -/
theorem extraction_failure_overwrites_text (st : SessionState) (doc : PdfDoc)
    (transport : HttpRequest → TransportResult)
    (hfail : extract_text_from_pdf doc = Except.ok none) :
    (uploadStep st doc transport).extracted_pdf_text = none ∧
    qaEnabled (uploadStep st doc transport) = false ∧
    (uploadStep st doc transport).last_summary = none := by
  simp [uploadStep, hfail, pyTruthyText, qaEnabled]

/-- Witness for C10: a session that had successfully extracted text from
an earlier document uploads a corrupt stream. -/
theorem extraction_failure_overwrites_text_witness :
    (uploadStep ⟨"", "", some "earlier document text", none⟩ (PdfDoc.corrupt "bad header")
        (fun _ => TransportResult.exn "unused")).extracted_pdf_text = none ∧
    qaEnabled (uploadStep ⟨"", "", some "earlier document text", none⟩
        (PdfDoc.corrupt "bad header") (fun _ => TransportResult.exn "unused")) = false ∧
    (uploadStep ⟨"", "", some "earlier document text", none⟩ (PdfDoc.corrupt "bad header")
        (fun _ => TransportResult.exn "unused")).last_summary = none :=
  extraction_failure_overwrites_text ⟨"", "", some "earlier document text", none⟩
    (PdfDoc.corrupt "bad header") (fun _ => TransportResult.exn "unused") rfl

/-- With a nonempty key and a response whose status is outside 4xx/5xx
and whose body decodes as JSON, `call_gemini_api` reduces to envelope
inspection wrapped in the `except` clauses. -/
lemma call_gemini_api_decodes (prompt_text gemini_api_key : String)
    (transport : HttpRequest → TransportResult) (resp : HttpResponse) (env : Json)
    (hkey : gemini_api_key ≠ "")
    (htr : transport (geminiRequest prompt_text gemini_api_key) = TransportResult.response resp)
    (hstatus : ¬(400 ≤ resp.status ∧ resp.status < 600))
    (hjson : resp.jsonOf = some env) :
    (call_gemini_api prompt_text gemini_api_key transport).1
      = tryExcept (geminiParse env) (apiHandlers Json) := by
  simp [call_gemini_api, hkey, htr, geminiTryBody, raise_for_status, hstatus, hjson,
    Bind.bind, Except.bind]

/-- C5 (amended): for every 4xx or 5xx status from the language-model
endpoint, the call fails with `HttpError` carrying exactly that status
code and the response body. -/
theorem gemini_4xx_5xx_http_error (prompt_text gemini_api_key : String)
    (transport : HttpRequest → TransportResult) (resp : HttpResponse)
    (hkey : gemini_api_key ≠ "")
    (htr : transport (geminiRequest prompt_text gemini_api_key) = TransportResult.response resp)
    (h4 : 400 ≤ resp.status) (h6 : resp.status < 600) :
    (call_gemini_api prompt_text gemini_api_key transport).1
      = Except.ok (Except.error (ApiError.httpError resp.status resp.text)) := by
  simp [call_gemini_api, hkey, htr, geminiTryBody, raise_for_status, h4, h6,
    Bind.bind, Except.bind, tryExcept, runHandlers, apiHandlers, isHTTPError]

/-- Witness for C5 (amended), matching the example given in the spec:
a mocked 429 with body `{"error":"rate limited"}`. -/
theorem gemini_4xx_5xx_http_error_witness :
    (call_gemini_api "p" "k"
        (fun _ => TransportResult.response
          ⟨429, "\x7b\"error\":\"rate limited\"\x7d", [], none⟩)).1
      = Except.ok (Except.error
          (ApiError.httpError 429 "\x7b\"error\":\"rate limited\"\x7d")) :=
  gemini_4xx_5xx_http_error "p" "k"
    (fun _ => TransportResult.response ⟨429, "\x7b\"error\":\"rate limited\"\x7d", [], none⟩)
    ⟨429, "\x7b\"error\":\"rate limited\"\x7d", [], none⟩
    (by decide) rfl (by norm_num) (by norm_num)

/-- Counterexample to C5 as stated: a non-2xx status that is neither 4xx
nor 5xx (here a mocked 304 with body `{}`) does not produce `HttpError` —
`raise_for_status` raises only for 4xx/5xx, so the code goes on to parse
the body and reports a malformed response instead. -/
theorem non2xx_not_always_http_error :
    (call_gemini_api "p" "k"
        (fun _ => TransportResult.response ⟨304, "\x7b\x7d", [], some (Json.obj [])⟩)).1
      = Except.ok (Except.error ApiError.malformedResponse) ∧
    (Except.ok (Except.error ApiError.malformedResponse)
        : Except Exn (Except ApiError Json))
      ≠ Except.ok (Except.error (ApiError.httpError 304 "\x7b\x7d")) :=
  ⟨rfl, by simp⟩

/-- C6: every response from the speech-synthesis endpoint whose status is
2xx makes `text_to_speech_elevenlabs` return the response body bytes
unchanged, whatever the body contains — success is decided by status
alone. -/
theorem tts_returns_bytes_unchanged (text : Json) (elevenlabs_api_key voice_id : String)
    (transport : HttpRequest → TransportResult) (resp : HttpResponse)
    (hkey : elevenlabs_api_key ≠ "")
    (htr : transport (ttsRequest text elevenlabs_api_key voice_id) = TransportResult.response resp)
    (h2 : 200 ≤ resp.status) (h3 : resp.status < 300) :
    (text_to_speech_elevenlabs text elevenlabs_api_key voice_id transport).1
      = Except.ok (Except.ok resp.content) := by
  have hstatus : ¬(400 ≤ resp.status ∧ resp.status < 600) := by omega
  simp [text_to_speech_elevenlabs, hkey, htr, ttsTryBody, raise_for_status, hstatus,
    Bind.bind, Except.bind, tryExcept, Pure.pure, Except.pure]

/-- Witness for C6: a mocked 200 whose body bytes are `0xff 0xfb`. -/
theorem tts_returns_bytes_unchanged_witness :
    (text_to_speech_elevenlabs (Json.str "Hello") "k" DEFAULT_VOICE_ID
        (fun _ => TransportResult.response ⟨200, "", [255, 251], none⟩)).1
      = Except.ok (Except.ok [255, 251]) :=
  tts_returns_bytes_unchanged (Json.str "Hello") "k" DEFAULT_VOICE_ID
    (fun _ => TransportResult.response ⟨200, "", [255, 251], none⟩)
    ⟨200, "", [255, 251], none⟩ (by decide) rfl (by norm_num) (by norm_num)

/-- Counterexample to C2 as stated: a session holding a summary uploads a
second document that extracts successfully, but the language-model key is
empty — the script only warns (line 175) and the prior summary is
retained, not cleared. -/
theorem second_upload_key_absent_retains_summary :
    (uploadStep ⟨"", "", some "old text", some (Json.str "old summary")⟩
        (PdfDoc.valid ["new text"]) (fun _ => TransportResult.exn "unused")).last_summary
      = some (Json.str "old summary") ∧
    some (Json.str "old summary") ≠ (none : Option Json) :=
  ⟨rfl, by simp⟩

/-- C2 (amended): after a new upload the stored summary ceases to depend
on its prior value whenever the language-model key is nonempty (it is
replaced by the outcome of the fresh summarization) or the extraction
outcome is falsy (it is cleared); but when the key is empty and
extraction yields truthy text, the prior summary is retained unchanged. -/
theorem upload_summary_reset_amended (st : SessionState) (doc : PdfDoc)
    (transport : HttpRequest → TransportResult) :
    (st.gemini_api_key ≠ "" →
      (uploadStep st doc transport).last_summary
        = (uploadStep { st with last_summary := none } doc transport).last_summary) ∧
    (∀ e, extract_text_from_pdf doc = Except.ok e → pyTruthyText e = false →
      (uploadStep st doc transport).last_summary = none) ∧
    (∀ e, extract_text_from_pdf doc = Except.ok e → pyTruthyText e = true →
      st.gemini_api_key = "" →
      (uploadStep st doc transport).last_summary = st.last_summary) := by
  obtain ⟨ex, hex⟩ := extract_total doc
  refine ⟨?_, ?_, ?_⟩
  · intro hkey
    simp only [uploadStep, hex]
    by_cases htruthy : pyTruthyText ex
    · obtain ⟨r, hr⟩ :=
        call_gemini_api_total (summaryPrompt (ex.getD "")) st.gemini_api_key transport
      simp only [htruthy, if_true, hkey, ne_eq, not_false_iff, if_pos,
        summarize_text_with_gemini]
      rw [hr]
      cases r with
      | error ae => rfl
      | ok v => by_cases hv : pyTruthy v <;> simp [hv]
    · simp [htruthy]
  · intro e he hfalsy
    rw [hex] at he
    obtain rfl : ex = e := by injection he
    simp [uploadStep, hex, hfalsy]
  · intro e he htruthy hkey
    rw [hex] at he
    obtain rfl : ex = e := by injection he
    simp [uploadStep, hex, htruthy, hkey]

/-- Witness for C2 (amended), exercising all three parts at concrete
sessions: a nonempty key, a falsy extraction, and an empty key with a
truthy extraction. -/
theorem upload_summary_reset_amended_witness :
    ((uploadStep ⟨"gk", "", some "", some (Json.str "s")⟩ (PdfDoc.valid ["pg"])
        (fun _ => TransportResult.exn "down")).last_summary
      = (uploadStep ⟨"gk", "", some "", none⟩ (PdfDoc.valid ["pg"])
        (fun _ => TransportResult.exn "down")).last_summary) ∧
    ((uploadStep ⟨"", "", some "x", some (Json.str "s")⟩ (PdfDoc.corrupt "bad")
        (fun _ => TransportResult.exn "down")).last_summary = none) ∧
    ((uploadStep ⟨"", "", none, some (Json.str "s")⟩ (PdfDoc.valid ["text"])
        (fun _ => TransportResult.exn "down")).last_summary = some (Json.str "s")) :=
  ⟨(upload_summary_reset_amended ⟨"gk", "", some "", some (Json.str "s")⟩
      (PdfDoc.valid ["pg"]) (fun _ => TransportResult.exn "down")).1 (by decide),
   (upload_summary_reset_amended ⟨"", "", some "x", some (Json.str "s")⟩
      (PdfDoc.corrupt "bad") (fun _ => TransportResult.exn "down")).2.1 none rfl rfl,
   (upload_summary_reset_amended ⟨"", "", none, some (Json.str "s")⟩
      (PdfDoc.valid ["text"]) (fun _ => TransportResult.exn "down")).2.2
      (some "text") rfl rfl rfl⟩

/-- A dictionary in which a lookup succeeds is nonempty (hence truthy). -/
lemma lookup_some_not_isEmpty {fields : List (String × Json)} {k : String} {v : Json}
    (h : fields.lookup k = some v) : fields.isEmpty = false := by
  cases fields with
  | nil => simp [List.lookup] at h
  | cons a l => rfl

/-- A truthy `.get` result means the key is present with that value. -/
lemma lookupJ_eq_lookup {fields : List (String × Json)} {k : String}
    (h : pyTruthy (lookupJ fields k) = true) :
    fields.lookup k = some (lookupJ fields k) := by
  unfold lookupJ at h ⊢
  cases hl : fields.lookup k with
  | none => rw [hl] at h; simp [pyTruthy] at h
  | some v => simp

/-- A falsy envelope fails the first test of the truthiness chain and is
reported as a malformed response. -/
lemma geminiParse_falsy {env : Json} (h : pyTruthy env = false) :
    geminiParse env = Except.ok (Except.error ApiError.malformedResponse) := by
  simp [geminiParse, h, Pure.pure, Except.pure]

/-- On an envelope carrying the full candidates/content/parts/text path,
the truthiness chain passes and the `"text"` value of the first part is
returned. -/
lemma geminiParse_of_path {fields c0fields ctfields p0fields : List (String × Json)}
    {cs ps : List Json} {tv : Json}
    (h1 : fields.lookup "candidates" = some (Json.arr (Json.obj c0fields :: cs)))
    (h2 : c0fields.lookup "content" = some (Json.obj ctfields))
    (h3 : ctfields.lookup "parts" = some (Json.arr (Json.obj p0fields :: ps)))
    (h4 : p0fields.lookup "text" = some tv) :
    geminiParse (Json.obj fields) = Except.ok (Except.ok tv) := by
  have hf := lookup_some_not_isEmpty h1
  have hct := lookup_some_not_isEmpty h3
  simp [geminiParse, jGet, jSub, jIdx, lookupJ, pyTruthy, h1, h2, h3, h4, hf, hct,
    List.get?, Bind.bind, Except.bind, Pure.pure, Except.pure]

/-- On every envelope in which the candidates/content/parts path is
absent in a well-typed way, the truthiness chain evaluates cleanly to
false and the source reports a malformed response. -/
lemma geminiParse_of_absent (env : Json) (hab : expectedPathAbsent env = true) :
    geminiParse env = Except.ok (Except.error ApiError.malformedResponse) := by
  by_cases hp : pyTruthy env = false
  · exact geminiParse_falsy hp
  · rw [Bool.not_eq_false] at hp
    cases env with
    | null => simp [pyTruthy] at hp
    | bool b => simp [expectedPathAbsent, hp] at hab
    | num q => simp [expectedPathAbsent, hp] at hab
    | str s => simp [expectedPathAbsent, hp] at hab
    | arr elems => simp [expectedPathAbsent, hp] at hab
    | obj fields =>
      simp only [expectedPathAbsent, hp, Bool.not_true, if_neg, Bool.false_eq_true,
        not_false_eq_true, if_false] at hab
      by_cases hc : pyTruthy (lookupJ fields "candidates") = false
      · simp only [hc, Bool.not_false, if_true] at hab
        simp [geminiParse, jGet, hp, hc, Bind.bind, Except.bind, Pure.pure, Except.pure]
      · rw [Bool.not_eq_false] at hc
        have hlk := lookupJ_eq_lookup hc
        simp only [hc, Bool.not_true, Bool.false_eq_true, not_false_eq_true, if_false] at hab
        cases hcand : lookupJ fields "candidates" with
        | arr elems =>
          rw [hcand] at hab hlk
          cases elems with
          | nil => rw [hcand] at hc; simp [pyTruthy] at hc
          | cons c0 cs =>
            simp only [] at hab
            cases c0 with
            | obj c0fields =>
              simp only [] at hab
              by_cases hct : pyTruthy (lookupJ c0fields "content") = false
              · simp [geminiParse, jGet, jSub, jIdx, hp, hc, hlk, hct,
                  Bind.bind, Except.bind, Pure.pure, Except.pure]
              · rw [Bool.not_eq_false] at hct
                have hlk2 := lookupJ_eq_lookup hct
                simp only [hct, Bool.not_true, Bool.false_eq_true, not_false_eq_true,
                  if_false] at hab
                cases hctv : lookupJ c0fields "content" with
                | obj ctfields =>
                  rw [hctv] at hab hlk2
                  rw [Bool.not_eq_eq_eq_not, Bool.not_true] at hab
                  simp [geminiParse, jGet, jSub, jIdx, hp, hc, hct, hlk,
                    hlk2, hab, Bind.bind, Except.bind, Pure.pure, Except.pure]
                | null => rw [hctv] at hab; simp at hab
                | bool b => rw [hctv] at hab; simp at hab
                | num q => rw [hctv] at hab; simp at hab
                | str s => rw [hctv] at hab; simp at hab
                | arr l => rw [hctv] at hab; simp at hab
            | null => simp at hab
            | bool b => simp at hab
            | num q => simp at hab
            | str s => simp at hab
            | arr l => simp at hab
        | null => rw [hcand] at hab; simp at hab
        | bool b => rw [hcand] at hab; simp at hab
        | num q => rw [hcand] at hab; simp at hab
        | str s => rw [hcand] at hab; simp at hab
        | obj l => rw [hcand] at hab; simp at hab

/-- Inversion of the structural reading: an envelope with a first-part
text decomposes into the full candidates/content/parts/text path. -/
lemma firstPartText_inversion {env : Json} {t : String}
    (h : firstCandidateFirstPartText env = some t) :
    ∃ fields c0fields ctfields p0fields cs ps,
      env = Json.obj fields ∧
      fields.lookup "candidates" = some (Json.arr (Json.obj c0fields :: cs)) ∧
      c0fields.lookup "content" = some (Json.obj ctfields) ∧
      ctfields.lookup "parts" = some (Json.arr (Json.obj p0fields :: ps)) ∧
      p0fields.lookup "text" = some (Json.str t) := by
  unfold firstCandidateFirstPartText at h
  repeat' split at h
  all_goals try exact Option.noConfusion h
  all_goals injection h with h
  all_goals subst h
  all_goals exact ⟨_, _, _, _, _, _, rfl, by assumption, by assumption, by assumption,
    by assumption⟩

/-- C4 (amended): for every 2xx language-model response whose JSON
envelope carries the expected candidates/content/parts path ending in a
text part, the call returns exactly the text of that first part; when the
path is absent in a well-typed way (`expectedPathAbsent`) the call fails
with `MalformedResponse`.  Ill-typed absences are excluded: there the
truthiness chain raises and the generic handler reports an unexpected
error instead (see the counterexample). -/
theorem gemini_envelope_parsing (prompt_text gemini_api_key : String)
    (transport : HttpRequest → TransportResult) (resp : HttpResponse) (env : Json)
    (hkey : gemini_api_key ≠ "")
    (htr : transport (geminiRequest prompt_text gemini_api_key) = TransportResult.response resp)
    (h2 : 200 ≤ resp.status) (h3 : resp.status < 300)
    (hjson : resp.jsonOf = some env) :
    (∀ t, firstCandidateFirstPartText env = some t →
      (call_gemini_api prompt_text gemini_api_key transport).1
        = Except.ok (Except.ok (Json.str t))) ∧
    (expectedPathAbsent env = true →
      (call_gemini_api prompt_text gemini_api_key transport).1
        = Except.ok (Except.error ApiError.malformedResponse)) := by
  have hstatus : ¬(400 ≤ resp.status ∧ resp.status < 600) := by omega
  have hred := call_gemini_api_decodes prompt_text gemini_api_key transport resp env
    hkey htr hstatus hjson
  constructor
  · intro t ht
    obtain ⟨fields, c0fields, ctfields, p0fields, cs, ps, henv, hh1, hh2, hh3, hh4⟩ :=
      firstPartText_inversion ht
    subst henv
    rw [hred, geminiParse_of_path hh1 hh2 hh3 hh4]
    rfl
  · intro hab
    rw [hred, geminiParse_of_absent env hab]
    rfl

/-- Counterexample to C4 as stated: the 2xx envelope binding
`"candidates"` to the number 5 lacks the candidates/content/parts path
(`firstCandidateFirstPartText` is `none`), yet the call does not fail
with `MalformedResponse`: the chain evaluates `result["candidates"][0]`,
which raises `TypeError` on a number, and the generic `except Exception`
clause (line 94) reports an unexpected error instead. -/
theorem illtyped_absence_not_malformed :
    firstCandidateFirstPartText (Json.obj [("candidates", Json.num 5)]) = none ∧
    (call_gemini_api "p" "k"
        (fun _ => TransportResult.response
          ⟨200, "", [], some (Json.obj [("candidates", Json.num 5)])⟩)).1
      = Except.ok (Except.error (ApiError.unexpected Exn.typeError)) ∧
    (Except.ok (Except.error (ApiError.unexpected Exn.typeError))
        : Except Exn (Except ApiError Json))
      ≠ Except.ok (Except.error ApiError.malformedResponse) :=
  ⟨rfl, rfl, by simp⟩

/-- The example envelope of the specification carrying `"Hello world"`. -/
def helloEnvelope : Json :=
  Json.obj [("candidates", Json.arr [Json.obj
    [("content", Json.obj [("parts", Json.arr
      [Json.obj [("text", Json.str "Hello world")]])])]])]

/-- Witness for C4, matching the example given in the spec: a mocked 200
whose envelope carries `"Hello world"` yields exactly `"Hello world"`. -/
theorem gemini_envelope_parsing_witness :
    (call_gemini_api "p" "k"
        (fun _ => TransportResult.response ⟨200, "", [], some helloEnvelope⟩)).1
      = Except.ok (Except.ok (Json.str "Hello world")) :=
  (gemini_envelope_parsing "p" "k"
    (fun _ => TransportResult.response ⟨200, "", [], some helloEnvelope⟩)
    ⟨200, "", [], some helloEnvelope⟩ helloEnvelope
    (by decide) rfl (by norm_num) (by norm_num) rfl).1 "Hello world" rfl

end TeacherAI
